import Mathlib

/-!
Verification of the step orchestrator in `eval/scripts/gencode_json.py`
(the SciCode benchmark code-generation driver).

The Python module is shallowly embedded below.  Pure string manipulation
becomes Lean functions on `String`; the file system becomes an explicit map
from artifact paths to file contents; the in-memory step cache
(`self.previous_llm_code`) becomes a `List (Option String)`; Python
exceptions become `Except String`; and the external collaborators
(the model client, the code extractor `extract_python_script`, the parsing
helpers `extract_function_name` / `get_function_from_code`, and Python's
`str.format` applied to the prompt template) are oracle functions bundled
in an `Ext` record, exactly as the specification treats them (pure function
boundaries, out of scope).

Notes on fidelity:
* The cache-slot assignment `self.previous_llm_code[num_steps - 1] = ...`
  raises `IndexError` in Python when the index is out of range; `List.set`
  would silently do nothing, so the embedding checks the bound explicitly
  and fails like the source does.
* `num_steps` is a 1-based step number (the driver only ever passes values
  ≥ 1); Python's negative-index wrap-around for `num_steps = 0` is not
  modelled.
* Artifact paths are modelled as a dedicated inductive (`FPath`), keeping
  the three path families (fixture file, response artifact, prompt file)
  distinct, as the on-disk layout in the spec does.
-/

namespace SciCodeGen

/-- One sub-step of a benchmark problem (an entry of `prob_data["sub_steps"]`). -/
structure SubStep where
  step_description_prompt : String
  function_header : String
  return_line : String
deriving DecidableEq, Repr

/-- A benchmark problem (one record of the JSONL problem set). -/
structure Problem where
  problem_id : String
  required_dependencies : String
  sub_steps : List SubStep
deriving DecidableEq, Repr

/-- An artifact path.  `fixture` is `eval/data/<pid>.<step>.txt`,
`response` is `<output_dir>/<model>/<pid>.<step>.py`, and
`promptFile` is `<prompt_dir>/<model>/<pid>.<step>.txt`. -/
inductive FPath where
  | fixture (probId : String) (step : Nat)
  | response (outputDir model probId : String) (step : Nat)
  | promptFile (promptDir model probId : String) (step : Nat)
deriving DecidableEq, Repr

/-- The file system: maps a path to the file's contents when the file exists. -/
def FileSys : Type := FPath → Option String

/-- Python's `write_text`: (over)write one file. -/
def FileSys.write (fs : FileSys) (p : FPath) (content : String) : FileSys :=
  fun q => if q = p then some content else fs q

/-- The keyword arguments assembled for `get_model_function`. -/
structure ModelKwargs where
  max_tokens : Option Nat
  temperature : Rat
deriving DecidableEq, Repr

/-- A record of one model invocation (for stating "no model call occurs"). -/
structure ModelCall where
  model : String
  kwargs : ModelKwargs
  prompt : String
deriving DecidableEq, Repr

/-- The external collaborators, treated as arbitrary pure functions:
`scicode.parse.parse.extract_function_name`,
`scicode.parse.parse.get_function_from_code`,
`scicode.gen.models.extract_python_script`, the model client obtained from
`get_model_function` (keyed by model id and kwargs), and Python's
`str.format` on the prompt template (template, problem_steps_str,
next_step_str, dependencies). -/
structure Ext where
  extract_function_name : String → String
  get_function_from_code : String → String → String
  extract_python_script : String → String
  model_fct : String → ModelKwargs → String → String
  format_template : String → String → String → String → String

/-- The `Gencode` object's configuration fields (its constructor arguments). -/
structure Gencode where
  model : String
  output_dir : String
  prompt_dir : String
  temperature : Rat

/-- The mutable state threaded through a run: the in-memory step cache
`self.previous_llm_code`, the file system, and the log of model calls. -/
structure GState where
  previous_llm_code : List (Option String)
  fs : FileSys
  calls : List ModelCall

/-- Python's `sep.join(l)`. -/
def pyJoin (sep : String) : List String → String
  | [] => ""
  | [a] => a
  | a :: b :: rest => a ++ sep ++ pyJoin sep (b :: rest)

/-- Python's `pat in s` substring test. -/
def strContains (s pat : String) : Bool :=
  decide (pat.data <:+: s.data)

/-- The hard-coded fixture condition in `generate_response_with_steps`
(lines 62-63 of the source): `(prob_id == "13" and prev_step == 5) or ...`. -/
def inFixtureTable (prob_id : String) (prev_step : Nat) : Bool :=
  (prob_id == "13" && prev_step == 5) || (prob_id == "62" && prev_step == 0)
    || (prob_id == "76" && prev_step == 2)

/-- The duplicate of the same condition in `main` (lines 187-188), which makes
the outer driver `continue` past those steps. -/
def skipStep (prob_id : String) (i : Nat) : Bool :=
  (prob_id == "13" && i == 5) || (prob_id == "62" && i == 0)
    || (prob_id == "76" && i == 2)

/-- The source file consulted for a prior step's code (`prev_file_path`). -/
def prevFilePath (output_dir model prob_id : String) (prev_step : Nat) : FPath :=
  if inFixtureTable prob_id prev_step then
    FPath.fixture prob_id (prev_step + 1)
  else
    FPath.response output_dir model prob_id (prev_step + 1)

/-- The cache-reset logic at the top of `generate_response_with_steps`
(lines 56-60): reset to all-`None` when `num_steps == 1`, or when the cache
length does not match `tot_steps`. -/
def resetCache (cache : List (Option String)) (num_steps tot_steps : Nat) :
    List (Option String) :=
  if num_steps = 1 then List.replicate tot_steps none
  else if cache.length ≠ tot_steps then List.replicate tot_steps none
  else cache

/-- One iteration of the prior-step resolution loop (`for prev_step in
range(num_steps - 1)`): if the slot is unresolved, read the source file
(fixture or response artifact), extract the step's function body, and store
it; a missing file raises the step-ordering exception of line 78. -/
def resolveOne (ext : Ext) (g : Gencode) (prob_data : Problem) (model : String)
    (num_steps : Nat) (fs : FileSys) (cache : List (Option String))
    (prev_step : Nat) : Except String (List (Option String)) :=
  match cache.get? prev_step with
  | none => Except.error "IndexError"
  | some (some _) => Except.ok cache
  | some none =>
    match fs (prevFilePath g.output_dir model prob_data.problem_id prev_step) with
    | some prev_file_content =>
      match prob_data.sub_steps.get? prev_step with
      | none => Except.error "IndexError"
      | some st =>
        Except.ok (cache.set prev_step
          (some (ext.get_function_from_code prev_file_content
            (ext.extract_function_name st.function_header))))
    | none =>
      Except.error ("Generating " ++ prob_data.problem_id ++ " step "
        ++ toString num_steps ++ " ahead of step " ++ toString (prev_step + 1) ++ ".")

/-- The resolution loop run for prior step indices `0 .. n - 1`, in order. -/
def resolveUpto (ext : Ext) (g : Gencode) (prob_data : Problem) (model : String)
    (num_steps : Nat) (fs : FileSys) (cache : List (Option String)) :
    Nat → Except String (List (Option String))
  | 0 => Except.ok cache
  | n + 1 =>
    match resolveUpto ext g prob_data model num_steps fs cache n with
    | Except.error e => Except.error e
    | Except.ok c => resolveOne ext g prob_data model num_steps fs c n

/-- The full prior-step resolution phase of `generate_response_with_steps`:
the loop over `range(num_steps - 1)`. -/
def resolvePrior (ext : Ext) (g : Gencode) (prob_data : Problem) (model : String)
    (num_steps : Nat) (fs : FileSys) (cache : List (Option String)) :
    Except String (List (Option String)) :=
  resolveUpto ext g prob_data model num_steps fs cache (num_steps - 1)

/-- The reads `self.previous_llm_code[i]` for `i in range(n)` performed by the
loop in `process_problem_steps` (`IndexError` when the cache is too short). -/
def collectPrev (cache : List (Option String)) : Nat → Except String (List (Option String))
  | 0 => Except.ok []
  | n + 1 =>
    match collectPrev cache n with
    | Except.error e => Except.error e
    | Except.ok l =>
      match cache.get? n with
      | none => Except.error "IndexError"
      | some v => Except.ok (l ++ [v])

/-- The `TypeError` Python's `str.join` raises when a collected cache entry is
still `None`; on success, the underlying strings. -/
def seqOpts : List (Option String) → Except String (List String)
  | [] => Except.ok []
  | none :: _ => Except.error "TypeError"
  | some s :: rest =>
    match seqOpts rest with
    | Except.error e => Except.error e
    | Except.ok l => Except.ok (s :: l)

/-- The `output_lines` list: every prior body followed by the `"------"`
separator (before the final `[:-1]` truncation). -/
def interleaveStr : List String → List String
  | [] => []
  | b :: rest => b :: "------" :: interleaveStr rest

/-- The function `Gencode.process_problem_code`: the header + blank line + return-line
block for the current step. -/
def process_problem_code (prob_data : Problem) (num_steps : Nat) :
    Except String String :=
  match prob_data.sub_steps.get? (num_steps - 1) with
  | none => Except.error "IndexError"
  | some st => Except.ok (st.function_header ++ "\n\n" ++ st.return_line)

/-- The method `Gencode.process_problem_steps`: returns
`(output_str, next_step_str, previous_code_str)`. -/
def process_problem_steps (cache : List (Option String)) (problem_data : Problem)
    (num_steps : Nat) : Except String (String × String × String) :=
  match collectPrev cache (num_steps - 1) with
  | Except.error e => Except.error e
  | Except.ok prevOpts =>
    match problem_data.sub_steps.get? (num_steps - 1) with
    | none => Except.error "IndexError"
    | some st =>
      match process_problem_code problem_data num_steps with
      | Except.error e => Except.error e
      | Except.ok code =>
        match seqOpts prevOpts with
        | Except.error e => Except.error e
        | Except.ok bodies =>
          Except.ok (pyJoin "\n\n" (List.dropLast (interleaveStr bodies)),
            pyJoin "\n\n" [st.step_description_prompt, code],
            pyJoin "\n" bodies)

/-- The method `Gencode.generate_prompt_with_steps`: renders the template and returns the
pair `(prompt, previous_code)`; the `assert next_step_str` of line 131 becomes
the `"AssertionError"` branch. -/
def generate_prompt_with_steps (ext : Ext) (cache : List (Option String))
    (prob_data : Problem) (num_steps : Nat) (prompt_template : String) :
    Except String (String × String) :=
  match process_problem_steps cache prob_data num_steps with
  | Except.error e => Except.error e
  | Except.ok (problem_steps_str, next_step_str, previous_code_str) =>
    if next_step_str = "" then Except.error "AssertionError"
    else
      Except.ok (ext.format_template prompt_template problem_steps_str next_step_str
          prob_data.required_dependencies,
        prob_data.required_dependencies ++ "\n" ++ previous_code_str ++ "\n")

/-- The method `Gencode.save_prompt_with_steps`: unconditionally (over)writes the rendered
prompt to `<prompt_dir>/<self.model>/<pid>.<num_steps>.txt`. -/
def save_prompt_with_steps (g : Gencode) (prob_data : Problem) (prompt : String)
    (num_steps : Nat) (fs : FileSys) : FileSys :=
  FileSys.write fs (FPath.promptFile g.prompt_dir g.model prob_data.problem_id num_steps)
    prompt

/-- The method `Gencode.save_response_with_steps`: writes
`previous_code + "\n" + extract_python_script(response)` to the response
artifact path. -/
def save_response_with_steps (ext : Ext) (g : Gencode) (prob_data : Problem)
    (response previous_code : String) (num_steps : Nat) (model : String)
    (fs : FileSys) : FileSys :=
  FileSys.write fs (FPath.response g.output_dir model prob_data.problem_id num_steps)
    (previous_code ++ "\n" ++ ext.extract_python_script response)

/-- The method `Gencode.generate_response_with_steps`: cache reset, prior-step
resolution, prompt assembly, optional prompt save, and the
existing-artifact skip around the model call. -/
def generate_response_with_steps (ext : Ext) (g : Gencode) (prob_data : Problem)
    (num_steps tot_steps : Nat) (model prompt_template : String) (save : Bool)
    (st : GState) : Except String GState :=
  let prob_id := prob_data.problem_id
  let res :=
    if num_steps = 1 then
      Except.ok (resetCache st.previous_llm_code num_steps tot_steps)
    else
      resolvePrior ext g prob_data model num_steps st.fs
        (resetCache st.previous_llm_code num_steps tot_steps)
  match res with
  | Except.error e => Except.error e
  | Except.ok cache =>
    match generate_prompt_with_steps ext cache prob_data num_steps prompt_template with
    | Except.error e => Except.error e
    | Except.ok (prompt, previous_code) =>
      let fs1 := if save then save_prompt_with_steps g prob_data prompt num_steps st.fs
        else st.fs
      let model_kwargs : ModelKwargs :=
        { max_tokens := if strContains model "claude" then some 4096 else none,
          temperature := g.temperature }
      let output_file_path := FPath.response g.output_dir model prob_id num_steps
      match fs1 output_file_path with
      | some _ =>
        Except.ok { previous_llm_code := cache, fs := fs1, calls := st.calls }
      | none =>
        if cache.length ≤ num_steps - 1 then Except.error "IndexError"
        else
          let response := ext.model_fct model model_kwargs prompt
          Except.ok (GState.mk
            (cache.set (num_steps - 1) (some (ext.extract_python_script response)))
            (save_response_with_steps ext g prob_data response previous_code
              num_steps model fs1)
            (st.calls ++ [ModelCall.mk model model_kwargs prompt]))

/-- The inner loop of `main` for one problem: iterate the step indices,
skipping the hard-coded fixture steps. -/
def processProblem (ext : Ext) (g : Gencode) (problem : Problem)
    (model prompt_template : String) (st : GState) : Except String GState :=
  (List.range problem.sub_steps.length).foldlM
    (fun s i =>
      if skipStep problem.problem_id i then Except.ok s
      else generate_response_with_steps ext g problem (i + 1)
        problem.sub_steps.length model prompt_template true s)
    st

/-- The outer loop of `main` over the loaded problem set. -/
def mainLoop (ext : Ext) (g : Gencode) (data : List Problem)
    (prompt_template : String) (st : GState) : Except String GState :=
  data.foldlM (fun s problem => processProblem ext g problem g.model prompt_template s) st

/-- The driver `main`: builds the `Gencode` object (whose cache starts out as the empty
list) and runs the problem loop against an initial file system. -/
def mainDriver (ext : Ext) (model output_dir prompt_dir : String)
    (temperature : Rat) (prompt_template : String) (data : List Problem)
    (fs0 : FileSys) : Except String GState :=
  mainLoop ext (Gencode.mk model output_dir prompt_dir temperature) data prompt_template
    (GState.mk [] fs0 [])

/-- Modelled from the spec: the Fixture Override Table, "a fixed set of
(problem_id, step_index) pairs" — `{("13",5), ("62",0), ("76",2)}`. -/
def fixtureTable : List (String × Nat) := [("13", 5), ("62", 0), ("76", 2)]

/-- Modelled from the spec: the prior-steps text, "the cached function bodies
joined with double newlines, interleaved with a literal separator token
between consecutive entries (separator omitted after the final entry)". -/
def specPriorSteps : List String → String
  | [] => ""
  | [b] => b
  | b :: c :: rest => b ++ "\n\n------\n\n" ++ specPriorSteps (c :: rest)

/-! ### Concrete instances (used to evaluate the theorems on real inputs) -/

/-- Concrete oracle functions: the function extractor returns the whole file,
the model echoes its prompt, and the template renders as
`problem_steps_str ++ "|" ++ next_step_str`. -/
def extW : Ext := Ext.mk (fun h => h) (fun content _ => content) (fun r => r)
  (fun _ _ p => p) (fun _ a b _ => a ++ "|" ++ b)

/-- A concrete configuration. -/
def gW : Gencode := Gencode.mk "m" "out" "pr" 0

/-- The empty file system. -/
def fsEmptyW : FileSys := fun _ => none

/-- The one-step example problem from the specification's end-to-end
scenario. -/
def probSpecW : Problem := Problem.mk "1" "import numpy as np"
  [SubStep.mk "Compute sum" "def f(x):\n    '''doc'''" "    return sum(x)"]

/-- A two-step problem with id "1". -/
def probTwoW : Problem := Problem.mk "1" "D1"
  [SubStep.mk "P1S1DESC" "H11" "R11", SubStep.mk "P1S2DESC" "H12" "R12"]

/-- A two-step problem with the fixture-skipped id "62". -/
def prob62W : Problem := Problem.mk "62" "D62"
  [SubStep.mk "P2S1DESC" "H21" "R21", SubStep.mk "P2S2DESC" "H22" "R22"]

/-- A file system holding an existing response artifact for ("m", "1", 1). -/
def fsRespW : FileSys :=
  fun p => if p = FPath.response "out" "m" "1" 1 then some "OLD" else none

/-- A file system holding a response artifact with a known body. -/
def fsBodyW : FileSys :=
  fun p => if p = FPath.response "out" "m" "1" 1 then some "BODY1FILE" else none

/-- The prompt `extW` renders for step 1 of `probSpecW`. -/
def promptW : String := "|Compute sum\n\ndef f(x):\n    '''doc'''\n\n    return sum(x)"

/-- The state after running step 1 of `probSpecW` when the response artifact
already exists: only the prompt file was (re)written. -/
def stSkipW : GState := GState.mk [none]
  (FileSys.write fsRespW (FPath.promptFile "pr" "m" "1" 1) promptW) []

/-- The state after running step 1 of `probSpecW` against the model
"claude" on an empty file system. -/
def stClaudeW : GState := GState.mk [some promptW]
  (FileSys.write
    (FileSys.write fsEmptyW (FPath.promptFile "pr" "m" "1" 1) promptW)
    (FPath.response "out" "claude" "1" 1)
    ("import numpy as np\n\n" ++ "\n" ++ promptW))
  [ModelCall.mk "claude" (ModelKwargs.mk (some 4096) 0) promptW]

/-! ### Shared lemmas about the embedding -/

theorem FileSys.write_ne (fs : FileSys) (p q : FPath) (s : String) (h : q ≠ p) :
    FileSys.write fs p s q = fs q := by
  simp [FileSys.write, h]

theorem FileSys.write_eq (fs : FileSys) (p : FPath) (s : String) :
    FileSys.write fs p s p = some s := by
  simp [FileSys.write]

theorem resolveOne_length {ext : Ext} {g : Gencode} {prob_data : Problem}
    {model : String} {num_steps : Nat} {fs : FileSys} {cache c' : List (Option String)}
    {i : Nat}
    (h : resolveOne ext g prob_data model num_steps fs cache i = Except.ok c') :
    c'.length = cache.length := by
  unfold resolveOne at h
  split at h
  · exact absurd h (by simp)
  · cases h; rfl
  · split at h
    · split at h
      · exact absurd h (by simp)
      · cases h; exact List.length_set cache i _
    · exact absurd h (by simp)

theorem resolveOne_get_ne {ext : Ext} {g : Gencode} {prob_data : Problem}
    {model : String} {num_steps : Nat} {fs : FileSys} {cache c' : List (Option String)}
    {i j : Nat}
    (h : resolveOne ext g prob_data model num_steps fs cache i = Except.ok c')
    (hij : j ≠ i) : c'.get? j = cache.get? j := by
  unfold resolveOne at h
  split at h
  · exact absurd h (by simp)
  · cases h; rfl
  · split at h
    · split at h
      · exact absurd h (by simp)
      · cases h; exact List.get?_set_ne _ cache (fun hh => hij hh.symm)
    · exact absurd h (by simp)

theorem resolveOne_populated {ext : Ext} {g : Gencode} {prob_data : Problem}
    {model : String} {num_steps : Nat} {fs : FileSys} {cache c' : List (Option String)}
    {i : Nat}
    (h : resolveOne ext g prob_data model num_steps fs cache i = Except.ok c') :
    ∃ s, c'.get? i = some (some s) := by
  unfold resolveOne at h
  split at h
  case _ => exact absurd h (by simp)
  case _ v hv =>
    cases h
    exact ⟨v, hv⟩
  case _ hv =>
    split at h
    · split at h
      · exact absurd h (by simp)
      · cases h
        rw [List.get?_set_eq, hv]
        exact ⟨_, rfl⟩
    · exact absurd h (by simp)

theorem resolveUpto_frame {ext : Ext} {g : Gencode} {prob_data : Problem}
    {model : String} {num_steps : Nat} {fs : FileSys} {cache c' : List (Option String)}
    {n : Nat}
    (h : resolveUpto ext g prob_data model num_steps fs cache n = Except.ok c') :
    ∀ j, n ≤ j → c'.get? j = cache.get? j := by
  induction n generalizing c' with
  | zero => cases h; intro j _; rfl
  | succ n ih =>
    unfold resolveUpto at h
    split at h
    · exact absurd h (by simp)
    case _ c hc =>
      intro j hj
      have hjn : j ≠ n := by omega
      rw [resolveOne_get_ne h hjn, ih hc j (by omega)]

theorem resolveUpto_populated {ext : Ext} {g : Gencode} {prob_data : Problem}
    {model : String} {num_steps : Nat} {fs : FileSys} {cache c' : List (Option String)}
    {n : Nat}
    (h : resolveUpto ext g prob_data model num_steps fs cache n = Except.ok c') :
    ∀ j, j < n → ∃ s, c'.get? j = some (some s) := by
  induction n generalizing c' with
  | zero => intro j hj; omega
  | succ n ih =>
    unfold resolveUpto at h
    split at h
    · exact absurd h (by simp)
    case _ c hc =>
      intro j hj
      rcases Nat.lt_succ_iff_lt_or_eq.mp hj with hlt | rfl
      · obtain ⟨s, hs⟩ := ih hc j hlt
        exact ⟨s, by rw [resolveOne_get_ne h (by omega), hs]⟩
      · exact resolveOne_populated h

theorem resolveUpto_error_mono {ext : Ext} {g : Gencode} {prob_data : Problem}
    {model : String} {num_steps : Nat} {fs : FileSys} {cache : List (Option String)}
    {m n : Nat} {e : String}
    (h : resolveUpto ext g prob_data model num_steps fs cache m = Except.error e)
    (hmn : m ≤ n) :
    resolveUpto ext g prob_data model num_steps fs cache n = Except.error e := by
  induction n with
  | zero =>
    have : m = 0 := Nat.le_zero.mp hmn
    rw [this] at h; exact h
  | succ n ih =>
    rcases Nat.lt_succ_iff_lt_or_eq.mp (Nat.lt_succ_of_le hmn) with hlt | rfl
    · have := ih (Nat.lt_succ_iff.mp hlt)
      unfold resolveUpto
      rw [this]
    · exact h

theorem resolveOne_ok {ext : Ext} {g : Gencode} {prob_data : Problem}
    {model : String} {num_steps : Nat} {fs : FileSys} {cache : List (Option String)}
    {i : Nat}
    (hgood : (∃ s, cache.get? i = some (some s)) ∨
      (cache.get? i = some none
        ∧ (fs (prevFilePath g.output_dir model prob_data.problem_id i)).isSome = true
        ∧ i < prob_data.sub_steps.length)) :
    ∃ c', resolveOne ext g prob_data model num_steps fs cache i = Except.ok c' := by
  unfold resolveOne
  rcases hgood with ⟨s, hs⟩ | ⟨hnone, hfile, hlt⟩
  · rw [hs]
    exact ⟨cache, rfl⟩
  · rw [hnone]
    rcases hf : fs (prevFilePath g.output_dir model prob_data.problem_id i) with _ | content
    · rw [hf] at hfile
      simp at hfile
    · rw [List.get?_eq_get hlt]
      exact ⟨_, rfl⟩

theorem resolveUpto_ok {ext : Ext} {g : Gencode} {prob_data : Problem}
    {model : String} {num_steps : Nat} {fs : FileSys} {cache : List (Option String)}
    {n : Nat}
    (hgood : ∀ j, j < n →
      (∃ s, cache.get? j = some (some s)) ∨
        (cache.get? j = some none
          ∧ (fs (prevFilePath g.output_dir model prob_data.problem_id j)).isSome = true
          ∧ j < prob_data.sub_steps.length)) :
    ∃ c', resolveUpto ext g prob_data model num_steps fs cache n = Except.ok c' := by
  induction n with
  | zero => exact ⟨cache, rfl⟩
  | succ n ih =>
    obtain ⟨c, hc⟩ := ih (fun j hj => hgood j (by omega))
    have hcn : c.get? n = cache.get? n := resolveUpto_frame hc n (le_refl n)
    have hgn : (∃ s, c.get? n = some (some s)) ∨
        (c.get? n = some none
          ∧ (fs (prevFilePath g.output_dir model prob_data.problem_id n)).isSome = true
          ∧ n < prob_data.sub_steps.length) := by
      rw [hcn]
      exact hgood n (by omega)
    obtain ⟨c', hc'⟩ := @resolveOne_ok ext g prob_data model num_steps fs c n hgn
    refine ⟨c', ?_⟩
    unfold resolveUpto
    rw [hc]
    exact hc'

theorem collectPrev_error {cache : List (Option String)} {n : Nat} {e : String}
    (h : collectPrev cache n = Except.error e) : e = "IndexError" := by
  induction n with
  | zero => simp [collectPrev] at h
  | succ n ih =>
    unfold collectPrev at h
    split at h
    next e2 heq =>
      injection h with h1
      subst h1
      exact ih heq
    next l heq =>
      split at h
      next =>
        injection h with h1
        exact h1.symm
      next => simp at h

theorem seqOpts_error {l : List (Option String)} {e : String}
    (h : seqOpts l = Except.error e) : e = "TypeError" := by
  induction l with
  | nil => simp [seqOpts] at h
  | cons a rest ih =>
    cases a with
    | none =>
      unfold seqOpts at h
      injection h with h1
      exact h1.symm
    | some s =>
      unfold seqOpts at h
      split at h
      next e2 heq =>
        injection h with h1
        subst h1
        exact ih heq
      next => simp at h

theorem collectPrev_take {cache : List (Option String)} {n : Nat}
    (h : n ≤ cache.length) :
    collectPrev cache n = Except.ok (cache.take n) := by
  induction n with
  | zero => rfl
  | succ n ih =>
    have hn : n < cache.length := by omega
    have ht : cache.take (n + 1) = cache.take n ++ [cache.get ⟨n, hn⟩] := by
      rw [List.take_succ, List.getElem?_eq_getElem hn]
      rfl
    unfold collectPrev
    rw [ih (by omega), List.get?_eq_get hn, ht]

theorem seqOpts_map_some (l : List String) : seqOpts (l.map some) = Except.ok l := by
  induction l with
  | nil => rfl
  | cons a rest ih => simp only [List.map_cons, seqOpts, ih]

theorem sep_fuse : ("\n\n" : String) ++ ("------" ++ "\n\n") = "\n\n------\n\n" := by
  decide

theorem pyJoin_interleave (l : List String) :
    pyJoin "\n\n" (List.dropLast (interleaveStr l)) = specPriorSteps l := by
  induction l with
  | nil => rfl
  | cons b rest ih =>
    cases rest with
    | nil => rfl
    | cons c rs =>
      have hd : List.dropLast (interleaveStr (b :: c :: rs))
          = b :: "------" :: List.dropLast (interleaveStr (c :: rs)) := rfl
      rcases hM : List.dropLast (interleaveStr (c :: rs)) with _ | ⟨x, xs⟩
      · have hcons : List.dropLast (interleaveStr (c :: rs))
            = c :: List.dropLast ("------" :: interleaveStr rs) := rfl
        rw [hcons] at hM
        simp at hM
      · rw [hM] at ih
        calc pyJoin "\n\n" (List.dropLast (interleaveStr (b :: c :: rs)))
            = b ++ "\n\n" ++ ("------" ++ "\n\n" ++ pyJoin "\n\n" (x :: xs)) := by
              rw [hd, hM]
              simp only [pyJoin]
          _ = b ++ "\n\n" ++ ("------" ++ "\n\n" ++ specPriorSteps (c :: rs)) := by
              rw [ih]
          _ = specPriorSteps (b :: c :: rs) := by
              simp only [specPriorSteps]
              rw [String.append_assoc b,
                ← String.append_assoc "\n\n" ("------" ++ "\n\n"), sep_fuse,
                ← String.append_assoc]

theorem generate_ok_cases {ext : Ext} {g : Gencode} {prob_data : Problem}
    {num_steps tot_steps : Nat} {model prompt_template : String} {save : Bool}
    {st st' : GState}
    (hok : generate_response_with_steps ext g prob_data num_steps tot_steps model
      prompt_template save st = Except.ok st') :
    ∃ cache prompt previous_code fs1 kwargs,
      (if num_steps = 1 then
        Except.ok (resetCache st.previous_llm_code num_steps tot_steps)
      else
        resolvePrior ext g prob_data model num_steps st.fs
          (resetCache st.previous_llm_code num_steps tot_steps)) = Except.ok cache
      ∧ generate_prompt_with_steps ext cache prob_data num_steps prompt_template
          = Except.ok (prompt, previous_code)
      ∧ fs1 = (if save then save_prompt_with_steps g prob_data prompt num_steps st.fs
          else st.fs)
      ∧ kwargs = ModelKwargs.mk
          (if strContains model "claude" then some 4096 else none) g.temperature
      ∧ (((∃ y, fs1 (FPath.response g.output_dir model prob_data.problem_id num_steps)
            = some y)
          ∧ st' = GState.mk cache fs1 st.calls)
        ∨ (fs1 (FPath.response g.output_dir model prob_data.problem_id num_steps) = none
          ∧ num_steps - 1 < cache.length
          ∧ st' = GState.mk
              (cache.set (num_steps - 1)
                (some (ext.extract_python_script (ext.model_fct model kwargs prompt))))
              (save_response_with_steps ext g prob_data
                (ext.model_fct model kwargs prompt) previous_code num_steps model fs1)
              (st.calls ++ [ModelCall.mk model kwargs prompt]))) := by
  simp only [generate_response_with_steps] at hok
  split at hok
  · exact absurd hok (by simp)
  next cache hcache =>
    split at hok
    · exact absurd hok (by simp)
    next prompt previous_code hpr =>
      refine ⟨cache, prompt, previous_code, _, _, hcache, hpr, rfl, rfl, ?_⟩
      split at hok
      next y hy =>
        injection hok with h1
        exact Or.inl ⟨⟨y, hy⟩, h1.symm⟩
      next hn =>
        split at hok
        · exact absurd hok (by simp)
        next hlen =>
          injection hok with h1
          exact Or.inr ⟨hn, by omega, h1.symm⟩

theorem append_sep_ne_empty (a b : String) : a ++ "\n\n" ++ b ≠ "" := by
  intro h
  have hlen := congrArg String.length h
  rw [String.length_append, String.length_append] at hlen
  have h2 : ("\n\n" : String).length = 2 := rfl
  have h0 : ("" : String).length = 0 := rfl
  rw [h2, h0] at hlen
  omega

theorem process_problem_code_error {prob_data : Problem} {num_steps : Nat} {e : String}
    (h : process_problem_code prob_data num_steps = Except.error e) : e = "IndexError" := by
  unfold process_problem_code at h
  split at h
  · injection h with h1
    exact h1.symm
  · simp at h

theorem process_problem_steps_error {cache : List (Option String)}
    {prob_data : Problem} {num_steps : Nat} {e : String}
    (h : process_problem_steps cache prob_data num_steps = Except.error e) :
    e = "IndexError" ∨ e = "TypeError" := by
  unfold process_problem_steps at h
  split at h
  next e2 heq =>
    injection h with h1
    subst h1
    exact Or.inl (collectPrev_error heq)
  next prevOpts heq =>
    split at h
    · injection h with h1
      exact Or.inl h1.symm
    next st hst =>
      split at h
      next e2 hcode =>
        injection h with h1
        subst h1
        exact Or.inl (process_problem_code_error hcode)
      next code hcode =>
        split at h
        next e2 hseq =>
          injection h with h1
          subst h1
          exact Or.inr (seqOpts_error hseq)
        next => simp at h

theorem process_problem_steps_next_ne {cache : List (Option String)}
    {prob_data : Problem} {num_steps : Nat} {o n p : String}
    (h : process_problem_steps cache prob_data num_steps = Except.ok (o, n, p)) :
    n ≠ "" := by
  unfold process_problem_steps at h
  split at h
  · simp at h
  next prevOpts heq =>
    split at h
    · simp at h
    next st hst =>
      split at h
      · simp at h
      next code hcode =>
        split at h
        · simp at h
        next bodies hseq =>
          injection h with h1
          have hn : n = pyJoin "\n\n" [st.step_description_prompt, code] := by
            have := congrArg (fun t : String × String × String => t.2.1) h1
            simpa using this.symm
          rw [hn]
          simp only [pyJoin]
          exact append_sep_ne_empty st.step_description_prompt code

/-- The value of `process_problem_steps` on a cache whose first
`num_steps - 1` slots hold `bodies`. -/
theorem process_steps_values
    (cache : List (Option String)) (prob_data : Problem) (num_steps : Nat)
    (bodies : List String) (st : SubStep)
    (htake : cache.take (num_steps - 1) = bodies.map some)
    (hlen : num_steps - 1 ≤ cache.length)
    (hsub : prob_data.sub_steps.get? (num_steps - 1) = some st) :
    process_problem_steps cache prob_data num_steps
      = Except.ok (specPriorSteps bodies,
        st.step_description_prompt ++ "\n\n"
          ++ (st.function_header ++ "\n\n" ++ st.return_line),
        pyJoin "\n" bodies) := by
  have hcollect : collectPrev cache (num_steps - 1) = Except.ok (bodies.map some) := by
    rw [collectPrev_take hlen, htake]
  have hcode : process_problem_code prob_data num_steps
      = Except.ok (st.function_header ++ "\n\n" ++ st.return_line) := by
    unfold process_problem_code
    rw [hsub]
  unfold process_problem_steps
  simp only [hcollect, hsub, hcode, seqOpts_map_some]
  rw [pyJoin_interleave]
  simp only [pyJoin]

/-- The value of `generate_prompt_with_steps` under the same conditions. -/
theorem generate_prompt_values
    (ext : Ext) (cache : List (Option String)) (prob_data : Problem)
    (num_steps : Nat) (prompt_template : String)
    (bodies : List String) (st : SubStep)
    (htake : cache.take (num_steps - 1) = bodies.map some)
    (hlen : num_steps - 1 ≤ cache.length)
    (hsub : prob_data.sub_steps.get? (num_steps - 1) = some st) :
    generate_prompt_with_steps ext cache prob_data num_steps prompt_template
      = Except.ok (ext.format_template prompt_template (specPriorSteps bodies)
          (st.step_description_prompt ++ "\n\n"
            ++ (st.function_header ++ "\n\n" ++ st.return_line))
          prob_data.required_dependencies,
        prob_data.required_dependencies ++ "\n" ++ pyJoin "\n" bodies ++ "\n") := by
  unfold generate_prompt_with_steps
  simp only [process_steps_values cache prob_data num_steps bodies st htake hlen hsub]
  rw [if_neg (append_sep_ne_empty st.step_description_prompt
    (st.function_header ++ "\n\n" ++ st.return_line))]

/-! ### The claims -/

/-- Claim C4: for a problem and target step, successful prior-step resolution
populates exactly the cache slots with 0-based indices 0 through
`num_steps - 2` (all are non-unresolved afterwards) and never writes slot
`num_steps - 1` or any later slot. -/
theorem resolvePrior_populates_exactly
    (ext : Ext) (g : Gencode) (prob_data : Problem) (model : String)
    (num_steps : Nat) (fs : FileSys) (cache c' : List (Option String))
    (hok : resolvePrior ext g prob_data model num_steps fs cache = Except.ok c') :
    (∀ j, j < num_steps - 1 → ∃ s, c'.get? j = some (some s))
    ∧ ∀ j, num_steps - 1 ≤ j → c'.get? j = cache.get? j :=
  ⟨resolveUpto_populated hok, resolveUpto_frame hok⟩

/-- Witness for C4: resolving step 2 of the two-step problem populates slot 0
from the on-disk artifact and leaves slot 1 unresolved. -/
theorem resolvePrior_populates_exactly_witness :
    (∀ j, j < 2 - 1 →
      ∃ s, ([some "BODY1FILE", none] : List (Option String)).get? j = some (some s))
    ∧ ∀ j, 2 - 1 ≤ j → ([some "BODY1FILE", none] : List (Option String)).get? j
        = ([none, none] : List (Option String)).get? j :=
  resolvePrior_populates_exactly extW gW probTwoW "m" 2 fsBodyW [none, none]
    [some "BODY1FILE", none] (by rfl)

/-- Claim C7: a generate-step call with target step 1 resets the cache to
all-unresolved slots (length = the problem's total step count); likewise when
the cache length differs from the total step count.  The call behaves
identically to one started from the freshly reset cache. -/
theorem generate_resets_cache
    (ext : Ext) (g : Gencode) (prob_data : Problem) (num_steps tot_steps : Nat)
    (model prompt_template : String) (save : Bool) (st : GState)
    (h : num_steps = 1 ∨ st.previous_llm_code.length ≠ tot_steps) :
    generate_response_with_steps ext g prob_data num_steps tot_steps model
      prompt_template save st
    = generate_response_with_steps ext g prob_data num_steps tot_steps model
        prompt_template save
        (GState.mk (List.replicate tot_steps none) st.fs st.calls) := by
  have h1 : resetCache st.previous_llm_code num_steps tot_steps
      = List.replicate tot_steps none := by
    unfold resetCache
    rcases h with h | h
    · rw [if_pos h]
    · by_cases h2 : num_steps = 1
      · rw [if_pos h2]
      · rw [if_neg h2, if_pos h]
  have h2 : resetCache (List.replicate tot_steps none) num_steps tot_steps
      = List.replicate tot_steps none := by
    unfold resetCache
    by_cases h3 : num_steps = 1
    · rw [if_pos h3]
    · rw [if_neg h3, if_neg (by simp)]
  simp only [generate_response_with_steps, h1, h2]

/-- Witness for C7: starting from a stale one-entry cache, a step-1 call
coincides with the call on the reset cache. -/
theorem generate_resets_cache_witness :
    generate_response_with_steps extW gW probSpecW 1 1 "m" "T" true
      (GState.mk [some "STALE"] fsEmptyW [])
    = generate_response_with_steps extW gW probSpecW 1 1 "m" "T" true
        (GState.mk (List.replicate 1 none) fsEmptyW []) :=
  generate_resets_cache extW gW probSpecW 1 1 "m" "T" true
    (GState.mk [some "STALE"] fsEmptyW []) (Or.inl rfl)

/-- Claim C9: resolution sources a prior step's body from the static fixture
path (problem id and 1-based step number) exactly for the pairs of the
Fixture Override Table {("13",5), ("62",0), ("76",2)}, and from the standard
response artifact path otherwise; the outer driver skips generation for
exactly those pairs. -/
theorem fixture_table_exact (output_dir model pid : String) (j : Nat) :
    (prevFilePath output_dir model pid j
      = if (pid, j) ∈ fixtureTable then FPath.fixture pid (j + 1)
        else FPath.response output_dir model pid (j + 1))
    ∧ (skipStep pid j = true ↔ (pid, j) ∈ fixtureTable) := by
  have hiff : inFixtureTable pid j = true ↔ (pid, j) ∈ fixtureTable := by
    simp only [inFixtureTable, fixtureTable, Prod.ext_iff, List.mem_cons,
      List.mem_singleton, Bool.or_eq_true, Bool.and_eq_true, beq_iff_eq,
      List.not_mem_nil, or_false]
    tauto
  have hiff2 : skipStep pid j = true ↔ (pid, j) ∈ fixtureTable := by
    simp only [skipStep, fixtureTable, Prod.ext_iff, List.mem_cons,
      List.mem_singleton, Bool.or_eq_true, Bool.and_eq_true, beq_iff_eq,
      List.not_mem_nil, or_false]
    tauto
  refine ⟨?_, hiff2⟩
  unfold prevFilePath
  by_cases h : (pid, j) ∈ fixtureTable
  · rw [if_pos (hiff.mpr h), if_pos h]
  · rw [if_neg ?_, if_neg h]
    intro hc
    exact h (hiff.mp hc)

/-- Claim C10: the emptiness assertion on the next-step section is
unreachable: for every input (even sub-steps whose fields are all empty
strings) prompt generation never fails with the assertion error, since the
next-step string always contains the blank-line separator. -/
theorem assert_next_step_unreachable
    (ext : Ext) (cache : List (Option String)) (prob_data : Problem)
    (num_steps : Nat) (prompt_template : String) :
    generate_prompt_with_steps ext cache prob_data num_steps prompt_template
      ≠ Except.error "AssertionError" := by
  intro h
  unfold generate_prompt_with_steps at h
  split at h
  next e heq =>
    injection h with h1
    rcases process_problem_steps_error heq with h2 | h2 <;> rw [h2] at h1 <;>
      exact absurd h1 (by decide)
  next o n p heq =>
    split at h
    next hb => exact process_problem_steps_next_ne heq hb
    next => simp at h

/-- Witness for C10: evaluated on the spec's one-step example. -/
theorem assert_next_step_unreachable_witness :
    generate_prompt_with_steps extW [] probSpecW 1 "T"
      ≠ Except.error "AssertionError" :=
  assert_next_step_unreachable extW [] probSpecW 1 "T"

/-- Claim C5: the assembled prior-steps text is the cached bodies of steps
1..k-1 joined with double newlines and the literal "------" separator between
consecutive entries (no separator after the final entry); the next-step text
is the step description joined by a blank line with the
header + blank line + return-line block. -/
theorem prompt_sections_spec
    (cache : List (Option String)) (prob_data : Problem) (num_steps : Nat)
    (bodies : List String) (st : SubStep)
    (htake : cache.take (num_steps - 1) = bodies.map some)
    (hlen : num_steps - 1 ≤ cache.length)
    (hsub : prob_data.sub_steps.get? (num_steps - 1) = some st) :
    process_problem_steps cache prob_data num_steps
      = Except.ok (specPriorSteps bodies,
        st.step_description_prompt ++ "\n\n"
          ++ (st.function_header ++ "\n\n" ++ st.return_line),
        pyJoin "\n" bodies) :=
  process_steps_values cache prob_data num_steps bodies st htake hlen hsub

/-- Witness for C5: two cached bodies produce the separator-joined prior-steps
text and the two-field next-step text. -/
theorem prompt_sections_spec_witness :
    process_problem_steps [some "B1", none] probTwoW 2
      = Except.ok (specPriorSteps ["B1"],
        "P1S2DESC" ++ "\n\n" ++ ("H12" ++ "\n\n" ++ "R12"),
        pyJoin "\n" ["B1"]) :=
  prompt_sections_spec [some "B1", none] probTwoW 2 ["B1"]
    (SubStep.mk "P1S2DESC" "H12" "R12") (by rfl) (by decide) (by rfl)

/-- Claim C6 (counterexample): on the specification's one-step example the
previous-code string is "import numpy as np\n\n" — with a trailing blank
line — not exactly "import numpy as np\n" as the claim states. -/
theorem previous_code_counterexample :
    (match generate_prompt_with_steps extW [] probSpecW 1 "T" with
      | Except.ok (_, pc) => pc
      | Except.error e => e) = "import numpy as np\n\n"
    ∧ "import numpy as np\n\n" ≠ "import numpy as np\n" := by
  refine ⟨rfl, by decide⟩

/-- Claim C6 (amended): the previous-code string equals
`required_dependencies ++ "\n" ++ (prior bodies newline-joined) ++ "\n"` —
dependencies, then the prior step bodies newline-joined, plus a trailing
newline; on the one-step example it is "import numpy as np\n\n". -/
theorem previous_code_spec
    (ext : Ext) (cache : List (Option String)) (prob_data : Problem)
    (num_steps : Nat) (prompt_template : String)
    (bodies : List String) (st : SubStep)
    (htake : cache.take (num_steps - 1) = bodies.map some)
    (hlen : num_steps - 1 ≤ cache.length)
    (hsub : prob_data.sub_steps.get? (num_steps - 1) = some st) :
    ∃ p, generate_prompt_with_steps ext cache prob_data num_steps prompt_template
      = Except.ok (p, prob_data.required_dependencies ++ "\n"
        ++ pyJoin "\n" bodies ++ "\n") :=
  ⟨_, generate_prompt_values ext cache prob_data num_steps prompt_template bodies st
    htake hlen hsub⟩

/-- Witness for C6 (amended): the one-step example yields
"import numpy as np" ++ "\n" ++ "" ++ "\n". -/
theorem previous_code_spec_witness :
    ∃ p, generate_prompt_with_steps extW [] probSpecW 1 "T"
      = Except.ok (p, "import numpy as np" ++ "\n" ++ pyJoin "\n" [] ++ "\n") :=
  previous_code_spec extW [] probSpecW 1 "T" []
    (SubStep.mk "Compute sum" "def f(x):\n    '''doc'''" "    return sum(x)")
    (by rfl) (by decide) (by rfl)

/-- Claim C1: if the response artifact for (model, P, k) already exists when
generate-step is called with target step k, no model invocation occurs, the
response file's bytes are unchanged, the cache slot for step k keeps its
value from the reset phase (it is never populated by the call), and the
rendered prompt file is still (over)written exactly when the save flag is
set. -/
theorem generate_idempotent_skip
    (ext : Ext) (g : Gencode) (prob_data : Problem) (num_steps tot_steps : Nat)
    (model prompt_template : String) (save : Bool) (st st' : GState) (content : String)
    (hfile : st.fs (FPath.response g.output_dir model prob_data.problem_id num_steps)
      = some content)
    (hok : generate_response_with_steps ext g prob_data num_steps tot_steps model
      prompt_template save st = Except.ok st') :
    st'.calls = st.calls
    ∧ st'.fs (FPath.response g.output_dir model prob_data.problem_id num_steps)
        = some content
    ∧ st'.previous_llm_code.get? (num_steps - 1)
        = (resetCache st.previous_llm_code num_steps tot_steps).get? (num_steps - 1)
    ∧ (save = true → ∃ p,
        st'.fs = FileSys.write st.fs
          (FPath.promptFile g.prompt_dir g.model prob_data.problem_id num_steps) p)
    ∧ (save = false → st'.fs = st.fs) := by
  obtain ⟨cache, prompt, previous_code, fs1, kwargs, hcache, hpr, hfs1, hkw, hbr⟩ :=
    generate_ok_cases hok
  have hfs1resp : fs1 (FPath.response g.output_dir model prob_data.problem_id num_steps)
      = some content := by
    rw [hfs1]
    cases save with
    | false => simpa using hfile
    | true =>
      rw [if_pos rfl]
      unfold save_prompt_with_steps
      rw [FileSys.write_ne]
      · exact hfile
      · simp
  rcases hbr with ⟨⟨y, hy⟩, hst⟩ | ⟨hnone, hlen2, hst⟩
  · subst hst
    have hslot : cache.get? (num_steps - 1)
        = (resetCache st.previous_llm_code num_steps tot_steps).get? (num_steps - 1) := by
      by_cases h1 : num_steps = 1
      · rw [if_pos h1] at hcache
        injection hcache with h2
        rw [← h2]
      · rw [if_neg h1] at hcache
        exact resolveUpto_frame hcache (num_steps - 1) (le_refl _)
    refine ⟨rfl, hfs1resp, hslot, ?_, ?_⟩
    · intro hsave
      subst hsave
      refine ⟨prompt, ?_⟩
      show fs1 = _
      rw [hfs1]
      rfl
    · intro hsave
      subst hsave
      show fs1 = st.fs
      rw [hfs1]
      rfl
  · rw [hfs1resp] at hnone
    simp at hnone

/-- Witness for C1: with the response artifact for ("m","1",1) on disk, the
call makes no model invocation, leaves the artifact bytes unchanged and the
cache slot unresolved, and rewrites the prompt file. -/
theorem generate_idempotent_skip_witness :
    stSkipW.calls = (GState.mk [] fsRespW []).calls
    ∧ stSkipW.fs (FPath.response "out" "m" "1" 1) = some "OLD"
    ∧ stSkipW.previous_llm_code.get? (1 - 1) = (resetCache [] 1 1).get? (1 - 1)
    ∧ (true = true → ∃ p,
        stSkipW.fs = FileSys.write fsRespW (FPath.promptFile "pr" "m" "1" 1) p)
    ∧ (true = false → stSkipW.fs = fsRespW) :=
  generate_idempotent_skip extW gW probSpecW 1 1 "m" "T" true
    (GState.mk [] fsRespW []) stSkipW "OLD" (by rfl) (by rfl)

/-- Claim C2: when the first failing prior step j (0-based) has an unresolved
cache slot and its source file — response artifact, or fixture file for the
override pairs — does not exist, generate-step fails with the step-ordering
error whose message names the 1-based prior step j+1, and the error
propagates out of the call. -/
theorem generate_missing_prior_error
    (ext : Ext) (g : Gencode) (prob_data : Problem) (num_steps tot_steps : Nat)
    (model prompt_template : String) (save : Bool) (st : GState) (j : Nat)
    (hj : j < num_steps - 1)
    (hslot : (resetCache st.previous_llm_code num_steps tot_steps).get? j = some none)
    (hmiss : st.fs (prevFilePath g.output_dir model prob_data.problem_id j) = none)
    (hfirst : ∀ j2, j2 < j →
      ¬((resetCache st.previous_llm_code num_steps tot_steps).get? j2 = some none
        ∧ st.fs (prevFilePath g.output_dir model prob_data.problem_id j2) = none))
    (hsub : num_steps - 1 ≤ prob_data.sub_steps.length) :
    generate_response_with_steps ext g prob_data num_steps tot_steps model
      prompt_template save st
      = Except.error ("Generating " ++ prob_data.problem_id ++ " step "
        ++ toString num_steps ++ " ahead of step " ++ toString (j + 1) ++ ".") := by
  have hjlen : j < (resetCache st.previous_llm_code num_steps tot_steps).length :=
    (List.get?_eq_some.mp hslot).1
  obtain ⟨c, hc⟩ : ∃ c', resolveUpto ext g prob_data model num_steps st.fs
      (resetCache st.previous_llm_code num_steps tot_steps) j = Except.ok c' := by
    apply resolveUpto_ok
    intro j2 hj2
    have hj2len : j2 < (resetCache st.previous_llm_code num_steps tot_steps).length := by
      omega
    rcases hv : (resetCache st.previous_llm_code num_steps tot_steps).get? j2 with _ | v
    · rw [List.get?_eq_none] at hv
      omega
    · cases v with
      | some s => exact Or.inl ⟨s, rfl⟩
      | none =>
        refine Or.inr ⟨rfl, ?_, by omega⟩
        rcases hf : st.fs (prevFilePath g.output_dir model prob_data.problem_id j2)
          with _ | content
        · exact absurd ⟨hv, hf⟩ (hfirst j2 hj2)
        · rfl
  have hcj : c.get? j = some none := by
    rw [resolveUpto_frame hc j (le_refl j)]
    exact hslot
  have herr1 : resolveUpto ext g prob_data model num_steps st.fs
      (resetCache st.previous_llm_code num_steps tot_steps) (j + 1)
      = Except.error ("Generating " ++ prob_data.problem_id ++ " step "
        ++ toString num_steps ++ " ahead of step " ++ toString (j + 1) ++ ".") := by
    unfold resolveUpto
    simp only [hc]
    unfold resolveOne
    simp only [hcj, hmiss]
  have herr := resolveUpto_error_mono herr1 (by omega : j + 1 ≤ num_steps - 1)
  have hne1 : ¬(num_steps = 1) := by omega
  unfold generate_response_with_steps resolvePrior
  rw [if_neg hne1]
  simp only [herr]

/-- Witness for C2: with an empty file system, requesting step 2 of problem
"1" fails naming step 1. -/
theorem generate_missing_prior_error_witness :
    generate_response_with_steps extW gW probTwoW 2 2 "m" "T" true
      (GState.mk [] fsEmptyW [])
      = Except.error ("Generating " ++ "1" ++ " step " ++ toString 2
        ++ " ahead of step " ++ toString (0 + 1) ++ ".") :=
  generate_missing_prior_error extW gW probTwoW 2 2 "m" "T" true
    (GState.mk [] fsEmptyW []) 0 (by decide) (by rfl) (by rfl)
    (fun j2 h2 => absurd h2 (Nat.not_lt_zero j2)) (by decide)

/-- Claim C8: every model invocation made by a generate-step call carries the
configured sampling temperature, and carries max_tokens = 4096 exactly when
the model identifier contains "claude" (otherwise max_tokens is omitted). -/
theorem model_kwargs_spec
    (ext : Ext) (g : Gencode) (prob_data : Problem) (num_steps tot_steps : Nat)
    (model prompt_template : String) (save : Bool) (st st' : GState)
    (hok : generate_response_with_steps ext g prob_data num_steps tot_steps model
      prompt_template save st = Except.ok st')
    (c : ModelCall) (hc : c ∈ st'.calls) :
    c ∈ st.calls
    ∨ (c.kwargs.temperature = g.temperature
      ∧ (c.kwargs.max_tokens = some 4096 ↔ "claude".data <:+: model.data)) := by
  obtain ⟨cache, prompt, previous_code, fs1, kwargs, hcache, hpr, hfs1, hkw, hbr⟩ :=
    generate_ok_cases hok
  rcases hbr with ⟨_, hst⟩ | ⟨_, _, hst⟩
  · subst hst
    exact Or.inl hc
  · subst hst
    rcases List.mem_append.mp hc with h1 | h1
    · exact Or.inl h1
    · right
      have hcall : c = ModelCall.mk model kwargs prompt := by
        simpa using h1
      subst hcall
      subst hkw
      refine ⟨rfl, ?_⟩
      show (if strContains model "claude" = true then some 4096 else none) = some 4096
        ↔ "claude".data <:+: model.data
      unfold strContains
      by_cases hin : "claude".data <:+: model.data
      · simp [hin]
      · simp [hin]

/-- Witness for C8: generating with model "claude" records one call with
max_tokens 4096 and the configured temperature 0. -/
theorem model_kwargs_spec_witness :
    ModelCall.mk "claude" (ModelKwargs.mk (some 4096) 0) promptW
      ∈ (GState.mk [] fsEmptyW []).calls
    ∨ ((ModelCall.mk "claude" (ModelKwargs.mk (some 4096) 0) promptW).kwargs.temperature
        = gW.temperature
      ∧ ((ModelCall.mk "claude" (ModelKwargs.mk (some 4096) 0) promptW).kwargs.max_tokens
          = some 4096 ↔ "claude".data <:+: "claude".data)) :=
  model_kwargs_spec extW gW probSpecW 1 1 "claude" "T" true
    (GState.mk [] fsEmptyW []) stClaudeW (by rfl)
    (ModelCall.mk "claude" (ModelKwargs.mk (some 4096) 0) promptW)
    (List.Mem.head _)

/-- Claim C3 (counterexample): driving a 2-step problem "1" and then the
2-step problem "62" (whose step 1 is fixture-skipped, so its first
generate-step call targets step 2 and the equal-length cache is not reset)
reuses problem "1"'s cached step-1 body: the third model call — step 2 of
problem "62" — receives a prompt whose prior-steps section is problem "1"'s
step-1 text ("P1S1DESC..."), which occurs nowhere in problem "62". -/
theorem stale_cache_leak_counterexample :
    (match mainLoop extW gW [probTwoW, prob62W] "T" (GState.mk [] fsEmptyW []) with
      | Except.ok s => s.calls.map (fun (c : ModelCall) => c.prompt)
      | Except.error e => [e])
    = ["|P1S1DESC\n\nH11\n\nR11",
       "|P1S1DESC\n\nH11\n\nR11|P1S2DESC\n\nH12\n\nR12",
       "|P1S1DESC\n\nH11\n\nR11|P2S2DESC\n\nH22\n\nR22"]
    ∧ strContains "|P1S1DESC\n\nH11\n\nR11|P2S2DESC\n\nH22\n\nR22" "P1S1DESC" = true := by
  refine ⟨rfl, by decide⟩

/-- Claim C3 (amended): a generate-step call for step 1 is independent of the
incoming cache — the cache is reset before resolution — so a problem whose
processing starts at step 1 can never see the previous problem's step
bodies.  (As the counterexample shows, this fails for problem "62", whose
step 1 is skipped by the driver.) -/
theorem generate_step1_cache_independent
    (ext : Ext) (g : Gencode) (prob_data : Problem) (tot_steps : Nat)
    (model prompt_template : String) (save : Bool) (c1 c2 : List (Option String))
    (fs : FileSys) (calls : List ModelCall) :
    generate_response_with_steps ext g prob_data 1 tot_steps model prompt_template
      save (GState.mk c1 fs calls)
    = generate_response_with_steps ext g prob_data 1 tot_steps model prompt_template
        save (GState.mk c2 fs calls) := by
  simp [generate_response_with_steps, resetCache]

end SciCodeGen
